import Mathlib

/-!
Shallow embedding of the analytics and scoring engine of `server.js`
(jiracli-mcp): keyword extraction and Jaccard similarity, duplicate
ranking and recommendation, sprint column aggregation, release risk
assessment and readiness scoring, component health scoring, and
component expert ranking.  Numbers are modelled as exact rationals;
`Math.round` is modelled as rounding half toward positive infinity.
-/

namespace JiraMcp

/-- JavaScript `Math.round`: round half toward positive infinity. -/
def jround (q : ℚ) : ℤ := ⌊q + 1 / 2⌋

/-- JavaScript `||` applied to two arrays: an array is always truthy
(even the empty array), so the left operand is always returned and the
right operand is dead code. -/
def jsArrayOr {α : Type} (a _b : List α) : List α := a

/-- Does the character list `hay` start with `pat`? -/
def chrStarts : List Char → List Char → Bool
  | [], _ => true
  | _ :: _, [] => false
  | p :: ps, h :: hs => p == h && chrStarts ps hs

/-- Does the character list `hay` contain `pat` as a contiguous run?
Models JavaScript `String.prototype.includes`. -/
def chrContains (hay pat : List Char) : Bool :=
  match hay with
  | [] => pat.isEmpty
  | _ :: t => chrStarts pat hay || chrContains t pat

/-- Lower-cased character data of a string (`text.toLowerCase()`). -/
def lowerData (s : String) : List Char := s.data.map Char.toLower

/-- JavaScript `\w`: ASCII letters, digits, underscore. -/
def isWordChar (c : Char) : Bool := c.isAlphanum || c == '_'

/-- The stop-word set of `extractKeywords` in `server.js`. -/
def stopWords : List (List Char) :=
  (["the", "a", "an", "and", "or", "but", "in", "on", "at", "to",
    "for", "of", "with", "by"] : List String).map String.data

/-- De-duplication via `new Set([...])`: keep the first occurrence of
each element, in encounter order. -/
def jsSetDedup (l : List (List Char)) : List (List Char) :=
  l.foldl (fun acc x => if x ∈ acc then acc else acc ++ [x]) []

/-- `extractKeywords` of `server.js`: lower-case, replace every
character other than word characters, whitespace and hyphens by a
space, split on whitespace, keep tokens of length `> 3` that are not
stop words, and de-duplicate preserving first occurrences. -/
def extractKeywords (text : String) : List (List Char) :=
  let cleaned := (lowerData text).map
    (fun c => if isWordChar c || c.isWhitespace || c == '-' then c else ' ')
  let words := (cleaned.splitOnP (fun c => c.isWhitespace)).filter
    (fun w => w.length > 3 && !(w ∈ stopWords))
  jsSetDedup words

/-- `calculateSimilarity` of `server.js`: Jaccard similarity of the two
keyword sets, `0` when either text is empty (falsy) or the union of the
keyword sets is empty. -/
def calculateSimilarity (text1 text2 : String) : ℚ :=
  if text1 == "" || text2 == "" then 0
  else
    let words1 := (extractKeywords text1).toFinset
    let words2 := (extractKeywords text2).toFinset
    let inter := words1 ∩ words2
    let union := words1 ∪ words2
    if 0 < union.card then (inter.card : ℚ) / union.card else 0

/-! Sprint aggregation (`getSprintInsights` of `server.js`). -/

/-- A sprint as consumed by the sprint-selection step. -/
structure Sprint where
  name : String
  state : String
deriving DecidableEq, Repr

/-- Sprint selection when no sprint name is given (`server.js` line
925): `sprints.filter(s => s.state === 'active') || sprints.slice(0, 1)`.
Since a JavaScript array is always truthy, the `||` fallback to the
first sprint never fires. -/
def targetSprints (sprints : List Sprint) : List Sprint :=
  jsArrayOr (sprints.filter (fun s => s.state == "active")) (sprints.take 1)

/-- An issue inside a sprint column: the assignee display name, when
present.  A bare issue-key stub carries no assignee. -/
structure ColIssue where
  key : String
  assignee : Option String
deriving DecidableEq, Repr

/-- The effective assignee of a column issue:
`(typeof issue === 'object' && issue.assignee) ? issue.assignee : 'Unassigned'`.
A missing or empty (falsy) assignee becomes the literal `Unassigned`. -/
def effAssignee (a : Option String) : String :=
  match a with
  | none => "Unassigned"
  | some s => if s == "" then "Unassigned" else s

/-- The three velocity buckets a column is classified into. -/
inductive Bucket
  | done
  | inProgress
  | todo
deriving DecidableEq, Repr

/-- Column classification by case-insensitive substring match on the
column name, exactly as in `server.js` lines 970-978. -/
def classifyColumn (name : String) : Bucket :=
  let lower := lowerData name
  if chrContains lower ("done").data || chrContains lower ("closed").data
      || chrContains lower ("complete").data then
    Bucket.done
  else if chrContains lower ("progress").data || chrContains lower ("review").data
      || chrContains lower ("testing").data then
    Bucket.inProgress
  else
    Bucket.todo

/-- Accumulated per-sprint counters of the sprint insight. -/
structure SprintCounts where
  total : ℕ
  doneIssues : ℕ
  inProgressIssues : ℕ
  todoIssues : ℕ
  unassigned : ℕ
deriving DecidableEq, Repr

/-- Processing of one column: add its issue count to the total and to
exactly one velocity bucket, and count its unassigned issues. -/
def stepColumn (acc : SprintCounts) (col : String × List ColIssue) : SprintCounts :=
  let n := col.2.length
  let un := (col.2.filter (fun i => effAssignee i.assignee == "Unassigned")).length
  match classifyColumn col.1 with
  | Bucket.done =>
      { acc with total := acc.total + n, doneIssues := acc.doneIssues + n,
                 unassigned := acc.unassigned + un }
  | Bucket.inProgress =>
      { acc with total := acc.total + n, inProgressIssues := acc.inProgressIssues + n,
                 unassigned := acc.unassigned + un }
  | Bucket.todo =>
      { acc with total := acc.total + n, todoIssues := acc.todoIssues + n,
                 unassigned := acc.unassigned + un }

/-- Aggregation over all columns of a sprint. -/
def analyzeColumns (cols : List (String × List ColIssue)) : SprintCounts :=
  cols.foldl stepColumn ⟨0, 0, 0, 0, 0⟩

/-- Completion percentage of a sprint:
`totalIssues > 0 ? Math.round((doneIssues / totalIssues) * 100) : 0`. -/
def completionPct (c : SprintCounts) : ℤ :=
  if c.total > 0 then jround (((c.doneIssues : ℚ) / c.total) * 100) else 0

/-! Duplicate detection (`analyzeDuplicates` of `server.js`). -/

/-- A candidate issue from the duplicate search: key and summary. -/
structure DupCandidate where
  key : String
  summary : String
deriving DecidableEq, Repr

/-- A candidate after scoring against the target summary. -/
structure ScoredCandidate where
  key : String
  similarity_score : ℚ
deriving DecidableEq, Repr

/-- Scoring of each candidate against the target issue summary
(`server.js` line 1061). -/
def scoreCandidates (targetSummary : String) (cands : List DupCandidate) :
    List ScoredCandidate :=
  cands.map (fun c => ⟨c.key, calculateSimilarity targetSummary c.summary⟩)

/-- Descending order on similarity scores, as in
`potentialDuplicates.sort((a, b) => b.similarity_score - a.similarity_score)`. -/
def bySimDesc (a b : ScoredCandidate) : Prop :=
  b.similarity_score ≤ a.similarity_score

instance : DecidableRel bySimDesc := fun a b =>
  inferInstanceAs (Decidable (b.similarity_score ≤ a.similarity_score))

/-- The sorted candidate list (JavaScript sort is stable). -/
def sortCandidates (l : List ScoredCandidate) : List ScoredCandidate :=
  List.insertionSort bySimDesc l

/-- Recommended action (`server.js` lines 1082-1084):
`REVIEW_FOR_DUPLICATES` when the pool is non-empty and the top-ranked
score exceeds `0.7`, else `PROCEED_WITH_ISSUE`. -/
def dupAction (sorted : List ScoredCandidate) : String :=
  match sorted with
  | [] => "PROCEED_WITH_ISSUE"
  | c :: _ =>
      if c.similarity_score > 0.7 then "REVIEW_FOR_DUPLICATES"
      else "PROCEED_WITH_ISSUE"

/-- Recommendation confidence (`server.js` line 1085):
`Medium` when the pool is non-empty, else `High`. -/
def dupConfidence (sorted : List ScoredCandidate) : String :=
  if sorted.length > 0 then "Medium" else "High"

/-- The recommendation pair (action, confidence) produced for a target
summary and candidate pool. -/
def dupRecommendation (targetSummary : String) (cands : List DupCandidate) :
    String × String :=
  let sorted := sortCandidates (scoreCandidates targetSummary cands)
  (dupAction sorted, dupConfidence sorted)

/-! Release readiness (`analyzeReleaseReadiness`, `assessReleaseRisks`
and `calculateReadinessScore` of `server.js`). -/

/-- The fields of the release analysis document consumed by the risk
assessment and the readiness score. -/
structure ReleaseAnalysis where
  completion_percentage : ℚ
  remaining_issues : ℕ
  critical_open_issues : ℕ
  blocked_issues : ℕ
  unassigned_issues : ℕ
  testing_issues : ℕ
deriving DecidableEq, Repr

/-- Construction of the release analysis from the fetched issue counts
(`analyzeReleaseReadiness`): completion percentage is
`total > 0 ? Math.round((completed / total) * 100) : 100` with
`completed = total - open`. -/
def mkReleaseAnalysis (total openCount critical blocked unassigned testing : ℕ) :
    ReleaseAnalysis where
  completion_percentage :=
    if total > 0 then ((jround ((((total : ℚ) - openCount) / total) * 100) : ℤ) : ℚ)
    else 100
  remaining_issues := openCount
  critical_open_issues := critical
  blocked_issues := blocked
  unassigned_issues := unassigned
  testing_issues := testing

/-- Risk severity levels. -/
inductive RiskLevel
  | LOW
  | MEDIUM
  | HIGH
deriving DecidableEq, Repr

/-- A triggered risk factor: category label and severity. -/
structure RiskFactor where
  category : String
  level : RiskLevel
deriving DecidableEq, Repr

/-- `if (overallRiskLevel !== 'HIGH') overallRiskLevel = 'MEDIUM'`. -/
def raiseToMedium (l : RiskLevel) : RiskLevel :=
  if l = RiskLevel.HIGH then l else RiskLevel.MEDIUM

/-- Completion risk of `assessReleaseRisks` (the first block): below
50% push HIGH and set the overall level HIGH; below 80% push MEDIUM and
raise the (initially LOW) overall level to MEDIUM. -/
def completionStep (a : ReleaseAnalysis) : List RiskFactor × RiskLevel :=
  if a.completion_percentage < 50 then
    ([⟨"COMPLETION", RiskLevel.HIGH⟩], RiskLevel.HIGH)
  else if a.completion_percentage < 80 then
    ([⟨"COMPLETION", RiskLevel.MEDIUM⟩], raiseToMedium RiskLevel.LOW)
  else ([], RiskLevel.LOW)

/-- Critical-issues risk of `assessReleaseRisks`: more than 5 critical
issues is HIGH (and forces the overall level HIGH), any critical issue
is MEDIUM (raising a non-HIGH overall level to MEDIUM). -/
def criticalStep (a : ReleaseAnalysis) (st : List RiskFactor × RiskLevel) :
    List RiskFactor × RiskLevel :=
  if a.critical_open_issues > 0 then
    (st.1 ++ [⟨"CRITICAL_ISSUES",
        if a.critical_open_issues > 5 then RiskLevel.HIGH else RiskLevel.MEDIUM⟩],
     if a.critical_open_issues > 5 then RiskLevel.HIGH else raiseToMedium st.2)
  else st

/-- Blocked-work risk of `assessReleaseRisks`: more than 3 blocked
issues is HIGH (forcing the overall level HIGH), any blocked issue is
MEDIUM (raising a non-HIGH overall level to MEDIUM). -/
def blockedStep (a : ReleaseAnalysis) (st : List RiskFactor × RiskLevel) :
    List RiskFactor × RiskLevel :=
  if a.blocked_issues > 0 then
    (st.1 ++ [⟨"BLOCKED_WORK",
        if a.blocked_issues > 3 then RiskLevel.HIGH else RiskLevel.MEDIUM⟩],
     if a.blocked_issues > 3 then RiskLevel.HIGH else raiseToMedium st.2)
  else st

/-- Resource-allocation risk of `assessReleaseRisks`: unassigned share
of remaining work above 30% pushes MEDIUM and raises a non-HIGH overall
level to MEDIUM. -/
def unassignedStep (a : ReleaseAnalysis) (st : List RiskFactor × RiskLevel) :
    List RiskFactor × RiskLevel :=
  if (a.unassigned_issues : ℚ) > (a.remaining_issues : ℚ) * 0.3 then
    (st.1 ++ [⟨"RESOURCE_ALLOCATION", RiskLevel.MEDIUM⟩], raiseToMedium st.2)
  else st

/-- Testing-readiness risk of `assessReleaseRisks`: any open
testing-related issue pushes a MEDIUM QUALITY_ASSURANCE factor but the
source never updates the overall level here. -/
def testingStep (a : ReleaseAnalysis) (st : List RiskFactor × RiskLevel) :
    List RiskFactor × RiskLevel :=
  if a.testing_issues > 0 then
    (st.1 ++ [⟨"QUALITY_ASSURANCE", RiskLevel.MEDIUM⟩], st.2)
  else st

/-- `assessReleaseRisks` of `server.js`: the five risk blocks run in
source order, pushing factors and updating the running overall level.
Returns the risk-factor list and the overall level. -/
def assessReleaseRisks (a : ReleaseAnalysis) : List RiskFactor × RiskLevel :=
  testingStep a (unassignedStep a (blockedStep a (criticalStep a (completionStep a))))

/-- Numeric rank of a severity level, `HIGH > MEDIUM > LOW`. -/
def rank : RiskLevel → ℕ
  | RiskLevel.LOW => 0
  | RiskLevel.MEDIUM => 1
  | RiskLevel.HIGH => 2

/-- The larger of two severity levels. -/
def lmax (x y : RiskLevel) : RiskLevel := if rank x ≤ rank y then y else x

/-- Maximum severity in a list of levels (`LOW` for the empty list). -/
def maxLevel (ls : List RiskLevel) : RiskLevel := ls.foldl lmax RiskLevel.LOW

/-- The severity levels of the risk factors other than the
QUALITY_ASSURANCE one. -/
def nonQALevels (rs : List RiskFactor) : List RiskLevel :=
  (rs.filter (fun f => f.category != "QUALITY_ASSURANCE")).map RiskFactor.level

/-- `calculateReadinessScore` of `server.js`: start at 100, subtract
the completion, critical, blocked and unassigned penalties, round, and
clamp below at 0. -/
def calculateReadinessScore (a : ReleaseAnalysis) : ℤ :=
  let score : ℚ := 100
  let completionPenalty : ℚ := (100 - a.completion_percentage) * 0.6
  let score := score - completionPenalty
  let score := score - a.critical_open_issues * 10
  let score := score - a.blocked_issues * 8
  let unassignedPercentage : ℚ :=
    if a.remaining_issues > 0 then
      ((a.unassigned_issues : ℚ) / a.remaining_issues) * 100
    else 0
  let score := score - unassignedPercentage * 0.3
  max 0 (jround score)

/-! Project health (`calculateHealthScore` of `server.js`). -/

/-- `calculateHealthScore` of `server.js`: band penalties for open,
old and unassigned issue counts, clamped below at 0. -/
def calculateHealthScore (totalOpen oldIssues unassigned : ℕ) : ℚ :=
  let score : ℚ := 100
  let score := if totalOpen > 100 then score - 20
    else if totalOpen > 50 then score - 10 else score
  let oldPercentage : ℚ :=
    if totalOpen > 0 then ((oldIssues : ℚ) / totalOpen) * 100 else 0
  let score := if oldPercentage > 30 then score - 30
    else if oldPercentage > 15 then score - 15 else score
  let unassignedPercentage : ℚ :=
    if totalOpen > 0 then ((unassigned : ℚ) / totalOpen) * 100 else 0
  let score := if unassignedPercentage > 25 then score - 20
    else if unassignedPercentage > 10 then score - 10 else score
  max 0 score

/-! Component health (`analyzeAllComponents` and
`calculateComponentHealthScore` of `server.js`). -/

/-- Per-component counters accumulated by `analyzeAllComponents`. -/
structure CompStats where
  total : ℕ
  openCount : ℕ
  bugs : ℕ
  recent : ℕ
  stale : ℕ
deriving DecidableEq, Repr

/-- `calculateComponentHealthScore` of `server.js`: subtract the
defect, staleness and open-ratio penalties, add 5 when there is recent
activity, round, and clamp below at 0 (there is no upper clamp). -/
def calculateComponentHealthScore (stats : CompStats)
    (defectRatio staleness : ℚ) : ℤ :=
  let score : ℚ := 100
  let score := score - defectRatio * 50
  let score := score - staleness * 40
  let openRatio : ℚ :=
    if stats.total > 0 then (stats.openCount : ℚ) / stats.total else 0
  let score := score - openRatio * 30
  let score := if stats.recent > 0 then score + 5 else score
  max 0 (jround score)

/-- The health score of a component as `analyzeAllComponents` computes
it: defect ratio `bugs / total` and staleness `stale / open` (each 0
when its denominator is 0) fed into `calculateComponentHealthScore`. -/
def componentHealthOf (stats : CompStats) : ℤ :=
  let defectRatio : ℚ :=
    if stats.total > 0 then (stats.bugs : ℚ) / stats.total else 0
  let staleness : ℚ :=
    if stats.openCount > 0 then (stats.stale : ℚ) / stats.openCount else 0
  calculateComponentHealthScore stats defectRatio staleness

/-- Bucket classification of `analyzeAllComponents`: `healthy` for
score at least 80, `concern` for at least 60, else `critical`. -/
def bucketOf (score : ℤ) : String :=
  if score ≥ 80 then "healthy"
  else if score ≥ 60 then "concern"
  else "critical"

/-! Component experts (`getComponentExperts` of `server.js`). -/

/-- Raw per-assignee counters accumulated over the component issues. -/
structure ExpertStats where
  name : String
  total_issues : ℕ
  closed_issues : ℕ
  open_issues : ℕ
deriving DecidableEq, Repr

/-- An expert record after the completion-rate map step. -/
structure Expert where
  name : String
  total_issues : ℕ
  closed_issues : ℕ
  open_issues : ℕ
  completion_rate : ℚ
deriving DecidableEq, Repr

/-- The map step of `getComponentExperts`: attach
`completion_rate = total_issues > 0 ? closed_issues / total_issues : 0`. -/
def mkExpert (s : ExpertStats) : Expert where
  name := s.name
  total_issues := s.total_issues
  closed_issues := s.closed_issues
  open_issues := s.open_issues
  completion_rate :=
    if s.total_issues > 0 then (s.closed_issues : ℚ) / s.total_issues else 0

/-- Descending order on `total_issues`
(`sort((a, b) => b.total_issues - a.total_issues)`). -/
def byTotalDesc (a b : Expert) : Prop := b.total_issues ≤ a.total_issues

instance : DecidableRel byTotalDesc := fun a b =>
  inferInstanceAs (Decidable (b.total_issues ≤ a.total_issues))

/-- Descending order on `completion_rate`
(`sort((a, b) => b.completion_rate - a.completion_rate)`). -/
def byRateDesc (a b : Expert) : Prop := b.completion_rate ≤ a.completion_rate

instance : DecidableRel byRateDesc := fun a b =>
  inferInstanceAs (Decidable (b.completion_rate ≤ a.completion_rate))

/-- The `experts` array as first built: mapped and sorted by
`total_issues` descending. -/
def expertsByTotal (l : List ExpertStats) : List Expert :=
  List.insertionSort byTotalDesc (l.map mkExpert)

/-- `recommendations.primary_expert`: `experts[0]`, captured from the
total-sorted array before the in-place re-sort. -/
def primaryExpert (l : List ExpertStats) : Option Expert :=
  (expertsByTotal l).head?

/-- The `experts` array as it appears in the returned document: the
`highest_completion_rate` recommendation re-sorts the shared array in
place by `completion_rate` descending. -/
def finalExperts (l : List ExpertStats) : List Expert :=
  List.insertionSort byRateDesc (expertsByTotal l)

/-! Helper lemmas. -/

/-- Evaluation rule for `jround`: sandwiching the shifted argument
between `z` and `z + 1` pins the rounded value. -/
theorem jround_eq (q : ℚ) (z : ℤ) (h1 : (z : ℚ) ≤ q + 1 / 2)
    (h2 : q + 1 / 2 < (z : ℚ) + 1) : jround q = z := by
  unfold jround
  rw [Int.floor_eq_iff]
  exact ⟨h1, by linarith⟩

/-- `jround` is monotone with respect to an integer upper bound. -/
theorem jround_le (q : ℚ) (z : ℤ) (h : q ≤ (z : ℚ)) : jround q ≤ z := by
  unfold jround
  have : (⌊q + 1 / 2⌋ : ℤ) ≤ ⌊(z : ℚ) + 1 / 2⌋ := by
    apply Int.floor_le_floor
    linarith
  have hz : (⌊(z : ℚ) + 1 / 2⌋ : ℤ) = z := by
    rw [Int.floor_eq_iff]
    constructor <;> linarith
  omega

/-- A foldl over `stepColumn` preserves the bucket partition
invariant. -/
theorem foldl_stepColumn_partition (cols : List (String × List ColIssue)) :
    ∀ acc : SprintCounts,
      acc.doneIssues + acc.inProgressIssues + acc.todoIssues = acc.total →
      (cols.foldl stepColumn acc).doneIssues
        + (cols.foldl stepColumn acc).inProgressIssues
        + (cols.foldl stepColumn acc).todoIssues
        = (cols.foldl stepColumn acc).total := by
  induction cols with
  | nil => intro acc h; simpa using h
  | cons c t ih =>
      intro acc h
      simp only [List.foldl_cons]
      apply ih
      unfold stepColumn
      cases classifyColumn c.1 <;> simp <;> omega

/-! Claim C1. -/

/-- C1: the spec (and the dead `|| sprints.slice(0, 1)` fallback in the
source) require that with no sprint-name filter and no active sprint
the first sprint is still analyzed, so a non-empty sprint list always
yields a non-empty analysis set.  The code instead filters on
`state === 'active'` and the `||` fallback never fires, so a non-empty
list with no active sprint yields an empty analysis set. -/
theorem C1_active_sprint_fallback_dead :
    targetSprints [⟨"Sprint 1", "closed"⟩] = []
      ∧ ([(⟨"Sprint 1", "closed"⟩ : Sprint)] : List Sprint) ≠ [] := by
  constructor
  · rfl
  · intro h
    simp at h

/-! Claim C9. -/

/-- C9: for every column list, the three velocity buckets partition the
issues: `done_issues + in_progress_issues + todo_issues = total_issues`. -/
theorem C9_velocity_buckets_partition (cols : List (String × List ColIssue)) :
    (analyzeColumns cols).doneIssues + (analyzeColumns cols).inProgressIssues
      + (analyzeColumns cols).todoIssues = (analyzeColumns cols).total :=
  foldl_stepColumn_partition cols ⟨0, 0, 0, 0, 0⟩ rfl

/-! Claim C7. -/

/-- C7: the sprint with columns To Do = [i1, i2], In Progress = [i3],
Done = [i4, i5] and no assignees yields total 5, done 2, in progress 1,
todo 2, unassigned 5, and completion percentage 40. -/
theorem C7_sprint_scenario :
    analyzeColumns [(("To Do"), [⟨("I1"), none⟩, ⟨("I2"), none⟩]),
        (("In Progress"), [⟨("I3"), none⟩]),
        (("Done"), [⟨("I4"), none⟩, ⟨("I5"), none⟩])]
      = ⟨5, 2, 1, 2, 5⟩
    ∧ completionPct (analyzeColumns [(("To Do"), [⟨("I1"), none⟩, ⟨("I2"), none⟩]),
        (("In Progress"), [⟨("I3"), none⟩]),
        (("Done"), [⟨("I4"), none⟩, ⟨("I5"), none⟩])]) = 40 := by
  have h : analyzeColumns [(("To Do"), [⟨("I1"), none⟩, ⟨("I2"), none⟩]),
      (("In Progress"), [⟨("I3"), none⟩]),
      (("Done"), [⟨("I4"), none⟩, ⟨("I5"), none⟩])]
      = ⟨5, 2, 1, 2, 5⟩ := by decide
  refine ⟨h, ?_⟩
  rw [h]
  have h40 : jround ((40 : ℚ)) = 40 := by
    apply jround_eq <;> norm_num
  simp only [completionPct]
  norm_num [h40]

/-! Claim C8. -/

/-- C8: similarity is symmetric; a text with at least one extracted
keyword has self-similarity 1; similarity of the empty string with
anything is 0. -/
theorem C8_similarity_properties :
    (∀ a b, calculateSimilarity a b = calculateSimilarity b a)
    ∧ (∀ a, extractKeywords a ≠ [] → calculateSimilarity a a = 1)
    ∧ (∀ x, calculateSimilarity ("") x = 0) := by
  refine ⟨?_, ?_, ?_⟩
  · intro a b
    by_cases ha : a = "" <;> by_cases hb : b = "" <;>
      simp [calculateSimilarity, ha, hb, Finset.inter_comm, Finset.union_comm]
  · intro a h
    have ha : a ≠ "" := by
      intro h0
      rw [h0] at h
      exact h rfl
    have hcond : (a == "" || a == "") = false := by simp [ha]
    simp only [calculateSimilarity, hcond, Bool.false_eq_true, if_false]
    rw [Finset.union_self, Finset.inter_self]
    have hcard : 0 < (extractKeywords a).toFinset.card := by
      rw [Finset.card_pos]
      obtain ⟨x, hx⟩ := List.exists_mem_of_ne_nil _ h
      exact ⟨x, List.mem_toFinset.mpr hx⟩
    rw [if_pos hcard, div_self]
    exact Nat.cast_ne_zero.mpr (Nat.pos_iff_ne_zero.mp hcard)
  · intro x
    rfl

/-- C8 witness: the summary text of the spec scenario has keywords, and
its self-similarity is 1. -/
theorem C8_similarity_properties_witness :
    extractKeywords ("login fails after timeout") ≠ []
      ∧ calculateSimilarity ("login fails after timeout")
          ("login fails after timeout") = 1 :=
  ⟨by decide, C8_similarity_properties.2.1 ("login fails after timeout") (by decide)⟩

/-! Claim C2. -/

/-- Evaluation rule for `calculateSimilarity` from the two keyword-set
cardinalities. -/
theorem calculateSimilarity_eval (a b : String) (m n : ℕ)
    (hab : (a == "" || b == "") = false)
    (hI : ((extractKeywords a).toFinset ∩ (extractKeywords b).toFinset).card = m)
    (hU : ((extractKeywords a).toFinset ∪ (extractKeywords b).toFinset).card = n)
    (hn : 0 < n) :
    calculateSimilarity a b = (m : ℚ) / n := by
  simp only [calculateSimilarity, hab, Bool.false_eq_true, if_false, hI, hU, hn, if_pos]

/-- The action is `REVIEW_FOR_DUPLICATES` exactly when the sorted pool
is non-empty with a top score above 0.7. -/
theorem dupAction_eq_review_iff (l : List ScoredCandidate) :
    dupAction l = "REVIEW_FOR_DUPLICATES"
      ↔ ∃ c t, l = c :: t ∧ c.similarity_score > 0.7 := by
  cases l with
  | nil =>
      constructor
      · intro h
        exact absurd h (by decide)
      · rintro ⟨c, t, h, -⟩
        cases h
  | cons c t =>
      by_cases h : c.similarity_score > 0.7
      · simp only [dupAction, if_pos h]
        exact ⟨fun _ => ⟨c, t, rfl, h⟩, fun _ => trivial⟩
      · simp only [dupAction, if_neg h]
        constructor
        · intro habs
          exact absurd habs (by decide)
        · rintro ⟨c', t', heq, hgt⟩
          cases heq
          exact absurd hgt h

/-- C2 counterexample: a pool whose single candidate scores 1/3 yields
action `PROCEED_WITH_ISSUE` but confidence `Medium`, not `High` as the
claim states for the otherwise-branch. -/
theorem C2_counterexample_low_score_medium_confidence :
    (dupRecommendation ("alpha gamma") [⟨("X-1"), ("alpha delta")⟩]).1
        = "PROCEED_WITH_ISSUE"
      ∧ (dupRecommendation ("alpha gamma") [⟨("X-1"), ("alpha delta")⟩]).2
        = "Medium"
      ∧ ("Medium" : String) ≠ "High" := by
  have hs : calculateSimilarity ("alpha gamma") ("alpha delta") = (1 : ℚ) / 3 :=
    calculateSimilarity_eval _ _ 1 3 (by decide) (by decide) (by decide) (by decide)
  refine ⟨?_, ?_, by decide⟩
  · show dupAction (sortCandidates (scoreCandidates ("alpha gamma")
      [⟨("X-1"), ("alpha delta")⟩])) = "PROCEED_WITH_ISSUE"
    simp only [scoreCandidates, List.map, sortCandidates, List.insertionSort,
      List.orderedInsert, dupAction, hs]
    norm_num
  · show dupConfidence (sortCandidates (scoreCandidates ("alpha gamma")
      [⟨("X-1"), ("alpha delta")⟩])) = "Medium"
    simp [scoreCandidates, sortCandidates, dupConfidence]

/-- C2 amended: the action is `REVIEW_FOR_DUPLICATES` iff the top
sorted candidate scores above 0.7 (else `PROCEED_WITH_ISSUE`), while
the confidence is `High` only for an empty pool and `Medium` for every
non-empty pool regardless of score. -/
theorem C2_recommendation_policy (target : String) (cands : List DupCandidate) :
    ((dupRecommendation target cands).1 = "REVIEW_FOR_DUPLICATES"
      ↔ ∃ c t, sortCandidates (scoreCandidates target cands) = c :: t
          ∧ c.similarity_score > 0.7)
    ∧ (dupRecommendation target cands).2
        = (if cands = [] then "High" else "Medium") := by
  constructor
  · exact dupAction_eq_review_iff _
  · show dupConfidence (sortCandidates (scoreCandidates target cands)) = _
    have hlen : (sortCandidates (scoreCandidates target cands)).length
        = cands.length := by
      rw [sortCandidates, (List.perm_insertionSort bySimDesc _).length_eq]
      simp [scoreCandidates]
    rw [dupConfidence, hlen]
    cases cands with
    | nil => simp
    | cons c t => simp

/-! Claim C3. -/

/-- C3 counterexample: a component whose single issue is closed,
recent and not a bug scores 105, violating the claimed upper bound of
100 (the +5 recent-activity bonus is not clamped above). -/
theorem C3_counterexample_component_score_above_100 :
    100 < componentHealthOf ⟨1, 0, 0, 1, 0⟩ := by
  have h105 : jround ((105 : ℚ)) = 105 := by
    apply jround_eq <;> norm_num
  simp only [componentHealthOf, calculateComponentHealthScore]
  norm_num [h105]

/-- C3 amended: the project health score always lies in [0, 100]; the
readiness score lies in [0, 100] whenever the completion percentage is
at most 100; the component health score is clamped below at 0 but is
only bounded by 105 because of the +5 recent-activity bonus. -/
theorem C3_score_bounds :
    (∀ t o u : ℕ, 0 ≤ calculateHealthScore t o u ∧ calculateHealthScore t o u ≤ 100)
    ∧ (∀ a : ReleaseAnalysis, a.completion_percentage ≤ 100 →
        0 ≤ calculateReadinessScore a ∧ calculateReadinessScore a ≤ 100)
    ∧ (∀ (s : CompStats) (d st : ℚ), 0 ≤ d → 0 ≤ st →
        0 ≤ calculateComponentHealthScore s d st
          ∧ calculateComponentHealthScore s d st ≤ 105) := by
  refine ⟨?_, ?_, ?_⟩
  · intro t o u
    simp only [calculateHealthScore]
    constructor
    · exact le_max_left 0 _
    · apply max_le (by norm_num)
      split_ifs <;> norm_num
  · intro a h
    simp only [calculateReadinessScore]
    constructor
    · exact le_max_left 0 _
    · apply max_le (by norm_num)
      apply jround_le
      have h1 : (0 : ℚ) ≤ (100 - a.completion_percentage) * 0.6 := by
        apply mul_nonneg (by linarith) (by norm_num)
      have h2 : (0 : ℚ) ≤ (a.critical_open_issues : ℚ) * 10 := by positivity
      have h3 : (0 : ℚ) ≤ (a.blocked_issues : ℚ) * 8 := by positivity
      have h4 : (0 : ℚ) ≤ (if a.remaining_issues > 0 then
          ((a.unassigned_issues : ℚ) / a.remaining_issues) * 100 else 0) := by
        split_ifs
        · positivity
        · exact le_refl 0
      have h4b : (0 : ℚ) ≤ (if a.remaining_issues > 0 then
          ((a.unassigned_issues : ℚ) / a.remaining_issues) * 100 else 0) * 0.3 := by
        apply mul_nonneg h4 (by norm_num)
      push_cast
      linarith
  · intro s d st hd hst
    simp only [calculateComponentHealthScore]
    constructor
    · exact le_max_left 0 _
    · apply max_le (by norm_num)
      apply jround_le
      have hdiv : (0 : ℚ) ≤ (s.openCount : ℚ) / (s.total : ℚ) :=
        div_nonneg (by positivity) (by positivity)
      have hdiv30 : (0 : ℚ) ≤ (s.openCount : ℚ) / (s.total : ℚ) * 30 :=
        mul_nonneg hdiv (by norm_num)
      have hd50 : (0 : ℚ) ≤ d * 50 := by positivity
      have hst40 : (0 : ℚ) ≤ st * 40 := by positivity
      split_ifs <;> push_cast <;> linarith

/-- C3 witness: the bounds instantiated at the spec scenarios. -/
theorem C3_score_bounds_witness :
    ((⟨80, 2, 0, 0, 0, 0⟩ : ReleaseAnalysis).completion_percentage ≤ 100
      ∧ 0 ≤ calculateReadinessScore ⟨80, 2, 0, 0, 0, 0⟩
      ∧ calculateReadinessScore ⟨80, 2, 0, 0, 0, 0⟩ ≤ 100)
    ∧ ((0 : ℚ) ≤ 1 / 2 ∧ (0 : ℚ) ≤ 0
      ∧ 0 ≤ calculateComponentHealthScore ⟨20, 20, 10, 0, 0⟩ (1 / 2) 0
      ∧ calculateComponentHealthScore ⟨20, 20, 10, 0, 0⟩ (1 / 2) 0 ≤ 105)
    ∧ (0 ≤ calculateHealthScore 120 10 5 ∧ calculateHealthScore 120 10 5 ≤ 100) := by
  have hr := C3_score_bounds.2.1 ⟨80, 2, 0, 0, 0, 0⟩ (by norm_num)
  have hc := C3_score_bounds.2.2 ⟨20, 20, 10, 0, 0⟩ (1 / 2) 0 (by norm_num) (by norm_num)
  exact ⟨⟨by norm_num, hr.1, hr.2⟩, ⟨by norm_num, by norm_num, hc.1, hc.2⟩,
    C3_score_bounds.1 120 10 5⟩

/-! Claim C4. -/



/-- Raising to MEDIUM is taking the maximum with MEDIUM. -/
theorem lmax_medium (x : RiskLevel) : lmax x RiskLevel.MEDIUM = raiseToMedium x := by
  cases x <;> rfl

/-- HIGH absorbs any level. -/
theorem lmax_high (x : RiskLevel) : lmax x RiskLevel.HIGH = RiskLevel.HIGH := by
  cases x <;> rfl

/-- Appending one level folds with one more `lmax`. -/
theorem maxLevel_append (l : List RiskLevel) (x : RiskLevel) :
    maxLevel (l ++ [x]) = lmax (maxLevel l) x := by
  simp [maxLevel, List.foldl_append]

/-- Appending a QUALITY_ASSURANCE factor leaves the filtered levels
unchanged. -/
theorem nonQALevels_append_qa (rs : List RiskFactor) (lv : RiskLevel) :
    nonQALevels (rs ++ [⟨"QUALITY_ASSURANCE", lv⟩]) = nonQALevels rs := by
  simp [nonQALevels, List.filter_append]

/-- Appending a non-QUALITY_ASSURANCE factor appends its level. -/
theorem nonQALevels_append_other (rs : List RiskFactor) (c : String) (lv : RiskLevel)
    (h : (c != "QUALITY_ASSURANCE") = true) :
    nonQALevels (rs ++ [⟨c, lv⟩]) = nonQALevels rs ++ [lv] := by
  simp [nonQALevels, List.filter_append, h]

/-- The completion step establishes the max-severity invariant. -/
theorem completionStep_inv (a : ReleaseAnalysis) :
    (completionStep a).2 = maxLevel (nonQALevels (completionStep a).1) := by
  unfold completionStep
  split_ifs <;> decide

/-- The critical-issues step preserves the max-severity invariant. -/
theorem criticalStep_inv (a : ReleaseAnalysis) (st : List RiskFactor × RiskLevel)
    (h : st.2 = maxLevel (nonQALevels st.1)) :
    (criticalStep a st).2 = maxLevel (nonQALevels (criticalStep a st).1) := by
  unfold criticalStep
  split_ifs with h1 h2
  · rw [nonQALevels_append_other st.1 ("CRITICAL_ISSUES") RiskLevel.HIGH (by decide),
      maxLevel_append, lmax_high]
  · rw [nonQALevels_append_other st.1 ("CRITICAL_ISSUES") RiskLevel.MEDIUM (by decide),
      maxLevel_append, lmax_medium, h]
  · exact h

/-- The blocked-work step preserves the max-severity invariant. -/
theorem blockedStep_inv (a : ReleaseAnalysis) (st : List RiskFactor × RiskLevel)
    (h : st.2 = maxLevel (nonQALevels st.1)) :
    (blockedStep a st).2 = maxLevel (nonQALevels (blockedStep a st).1) := by
  unfold blockedStep
  split_ifs with h1 h2
  · rw [nonQALevels_append_other st.1 ("BLOCKED_WORK") RiskLevel.HIGH (by decide),
      maxLevel_append, lmax_high]
  · rw [nonQALevels_append_other st.1 ("BLOCKED_WORK") RiskLevel.MEDIUM (by decide),
      maxLevel_append, lmax_medium, h]
  · exact h

/-- The resource-allocation step preserves the max-severity invariant. -/
theorem unassignedStep_inv (a : ReleaseAnalysis) (st : List RiskFactor × RiskLevel)
    (h : st.2 = maxLevel (nonQALevels st.1)) :
    (unassignedStep a st).2 = maxLevel (nonQALevels (unassignedStep a st).1) := by
  unfold unassignedStep
  split_ifs
  · rw [nonQALevels_append_other st.1 ("RESOURCE_ALLOCATION") RiskLevel.MEDIUM (by decide),
      maxLevel_append, lmax_medium, h]
  · exact h

/-- The testing step leaves the overall level unchanged and its pushed
factor is filtered out, so the invariant is preserved. -/
theorem testingStep_inv (a : ReleaseAnalysis) (st : List RiskFactor × RiskLevel)
    (h : st.2 = maxLevel (nonQALevels st.1)) :
    (testingStep a st).2 = maxLevel (nonQALevels (testingStep a st).1) := by
  unfold testingStep
  split_ifs
  · simp [nonQALevels_append_qa, h]
  · exact h

/-- C4 amended: the overall risk level equals the maximum severity of
the triggered completion, critical-issues, blocked-work and
resource-allocation factors; the QUALITY_ASSURANCE (testing) factor is
recorded as MEDIUM but never raises the overall level. -/
theorem C4_overall_risk_max_of_non_qa (a : ReleaseAnalysis) :
    (assessReleaseRisks a).2 = maxLevel (nonQALevels (assessReleaseRisks a).1) := by
  unfold assessReleaseRisks
  exact testingStep_inv _ _ (unassignedStep_inv _ _ (blockedStep_inv _ _
    (criticalStep_inv _ _ (completionStep_inv a))))

/-- C4 counterexample: with completion 90%, one remaining issue that
is testing-labeled and no other risk, the factor list holds a MEDIUM
QUALITY_ASSURANCE entry yet the overall risk level stays LOW, so the
overall level is not the maximum severity of the triggered factors. -/
theorem C4_counterexample_testing_risk_ignored :
    (assessReleaseRisks ⟨90, 1, 0, 0, 0, 1⟩).2 = RiskLevel.LOW
      ∧ maxLevel ((assessReleaseRisks ⟨90, 1, 0, 0, 0, 1⟩).1.map RiskFactor.level)
        = RiskLevel.MEDIUM
      ∧ RiskLevel.LOW ≠ RiskLevel.MEDIUM := by
  have h : assessReleaseRisks ⟨90, 1, 0, 0, 0, 1⟩
      = ([⟨"QUALITY_ASSURANCE", RiskLevel.MEDIUM⟩], RiskLevel.LOW) := by
    simp only [assessReleaseRisks, completionStep, criticalStep, blockedStep,
      unassignedStep, testingStep]
    norm_num
  rw [h]
  exact ⟨rfl, by decide, by decide⟩

/-! Claim C5. -/

/-- The release scenario total 10, open 2, no blocked, critical,
unassigned or testing issues triggers no risk factor and leaves the
overall level LOW. -/
theorem relScenario_eval :
    assessReleaseRisks (mkReleaseAnalysis 10 2 0 0 0 0) = ([], RiskLevel.LOW) := by
  have h80 : jround ((80 : ℚ)) = 80 := by apply jround_eq <;> norm_num
  norm_num [assessReleaseRisks, mkReleaseAnalysis, completionStep, criticalStep,
    blockedStep, unassignedStep, testingStep, h80]

/-- The release scenario has completion percentage 80. -/
theorem relScenario_completion :
    (mkReleaseAnalysis 10 2 0 0 0 0).completion_percentage = 80 := by
  have h80 : jround ((80 : ℚ)) = 80 := by apply jround_eq <;> norm_num
  norm_num [mkReleaseAnalysis, h80]

/-- The release scenario has readiness score 88. -/
theorem relScenario_readiness :
    calculateReadinessScore (mkReleaseAnalysis 10 2 0 0 0 0) = 88 := by
  have h80 : jround ((80 : ℚ)) = 80 := by apply jround_eq <;> norm_num
  have h88 : jround ((88 : ℚ)) = 88 := by apply jround_eq <;> norm_num
  norm_num [calculateReadinessScore, mkReleaseAnalysis, h80, h88]

/-- C5 counterexample: for the release with total 10 and open 2, the
overall risk level is not MEDIUM as claimed — completion is exactly 80,
which falls outside the `completion < 80` band. -/
theorem C5_counterexample_risk_not_medium :
    (assessReleaseRisks (mkReleaseAnalysis 10 2 0 0 0 0)).2 ≠ RiskLevel.MEDIUM := by
  rw [relScenario_eval]
  decide

/-- C5 amended: the release with total 10, open 2 and no other flags
has completion 80%, overall risk level LOW (no completion factor
triggers at exactly 80%), and readiness score 88. -/
theorem C5_release_scenario :
    (mkReleaseAnalysis 10 2 0 0 0 0).completion_percentage = 80
      ∧ (assessReleaseRisks (mkReleaseAnalysis 10 2 0 0 0 0)).2 = RiskLevel.LOW
      ∧ calculateReadinessScore (mkReleaseAnalysis 10 2 0 0 0 0) = 88 :=
  ⟨relScenario_completion, by rw [relScenario_eval], relScenario_readiness⟩

/-! Claim C6. -/

/-- The component scenario total 20, open 20, bugs 10, no recent and no
stale issues scores 100 - 25 - 0 - 30 = 45. -/
theorem compScenario_eval :
    componentHealthOf ⟨20, 20, 10, 0, 0⟩ = 45 := by
  have h45 : jround ((45 : ℚ)) = 45 := by apply jround_eq <;> norm_num
  norm_num [componentHealthOf, calculateComponentHealthScore, h45]

/-- C6 counterexample: the scenario component scores 45, not 20 as the
claim computes (the spec evaluates 100 - 50*0.5 - 30 to 20 instead of
45). -/
theorem C6_counterexample_score_not_20 :
    componentHealthOf ⟨20, 20, 10, 0, 0⟩ ≠ 20 := by
  rw [compScenario_eval]
  decide

/-- C6 amended: the component with total 20, bugs 10, open 20, stale 0
and no recent issues scores 100 - 50*0.5 - 40*0 - 30*1 = 45 and lands
in the critical bucket (45 < 60). -/
theorem C6_component_scenario :
    componentHealthOf ⟨20, 20, 10, 0, 0⟩ = 45
      ∧ bucketOf (componentHealthOf ⟨20, 20, 10, 0, 0⟩) = "critical" :=
  ⟨compScenario_eval, by rw [compScenario_eval]; decide⟩

/-! Claim C10. -/

/-- C10: for a non-empty expert pool, the experts array of the returned
document is ordered by completion rate descending (the in-place sort
for the highest_completion_rate recommendation reorders the shared
array), while primary_expert — captured before that sort — is an expert
with the greatest total_issues. -/
theorem C10_experts_order_and_primary (l : List ExpertStats) (hl : l ≠ []) :
    (finalExperts l).Sorted byRateDesc
      ∧ ∃ e, primaryExpert l = some e
          ∧ ∀ s ∈ l, s.total_issues ≤ e.total_issues := by
  haveI : IsTotal Expert byRateDesc :=
    ⟨fun a b => le_total b.completion_rate a.completion_rate⟩
  haveI : IsTrans Expert byRateDesc := ⟨fun _ _ _ h1 h2 => le_trans h2 h1⟩
  haveI : IsTotal Expert byTotalDesc :=
    ⟨fun a b => le_total b.total_issues a.total_issues⟩
  haveI : IsTrans Expert byTotalDesc := ⟨fun _ _ _ h1 h2 => le_trans h2 h1⟩
  constructor
  · exact List.sorted_insertionSort byRateDesc _
  · have hne : expertsByTotal l ≠ [] := by
      have hp := List.perm_insertionSort byTotalDesc (l.map mkExpert)
      intro h0
      rw [expertsByTotal] at h0
      rw [h0] at hp
      have := hp.length_eq
      simp at this
      exact hl (List.length_eq_zero.mp this.symm)
    obtain ⟨e, rest, he⟩ := List.exists_cons_of_ne_nil hne
    refine ⟨e, ?_, ?_⟩
    · rw [primaryExpert, he]
      rfl
    · intro s hs
      have hsorted : (expertsByTotal l).Sorted byTotalDesc :=
        List.sorted_insertionSort byTotalDesc _
      have hmem : mkExpert s ∈ expertsByTotal l := by
        rw [expertsByTotal]
        rw [(List.perm_insertionSort byTotalDesc (l.map mkExpert)).mem_iff]
        exact List.mem_map_of_mem mkExpert hs
      rw [he] at hmem hsorted
      rcases List.mem_cons.mp hmem with h | h
      · rw [← h]
        exact le_refl _
      · exact (List.sorted_cons.mp hsorted).1 _ h

/-- C10 witness: a two-expert pool where the most prolific expert has
the lower completion rate. -/
theorem C10_experts_order_and_primary_witness :
    ([(⟨("Alice"), 3, 1, 2⟩ : ExpertStats), ⟨("Bob"), 1, 1, 0⟩] ≠ ([] : List ExpertStats))
      ∧ ((finalExperts [⟨("Alice"), 3, 1, 2⟩, ⟨("Bob"), 1, 1, 0⟩]).Sorted byRateDesc
        ∧ ∃ e, primaryExpert [⟨("Alice"), 3, 1, 2⟩, ⟨("Bob"), 1, 1, 0⟩] = some e
            ∧ ∀ s ∈ [(⟨("Alice"), 3, 1, 2⟩ : ExpertStats), ⟨("Bob"), 1, 1, 0⟩],
                s.total_issues ≤ e.total_issues) :=
  ⟨by decide, C10_experts_order_and_primary [⟨("Alice"), 3, 1, 2⟩, ⟨("Bob"), 1, 1, 0⟩]
    (by decide)⟩

end JiraMcp
